import Mathlib

/-!
Shallow embedding of the akuma kernel (QEMU aarch64 "virt" machine) sources:
`src/main.rs`, `src/network.rs`, `src/ssh_server.rs`, `src/tests.rs`,
`src/console.rs`.  External collaborators (the virtio MMIO device registers,
the smoltcp TCP/IP stack, the embassy-net futures) appear as explicit
environment records whose fields record the outcomes of the calls the kernel
makes into them; machine integers are modelled as `Nat` with an explicit
`% 2 ^ 64` where the source uses wrapping `u64`/`usize` arithmetic.
-/

set_option maxRecDepth 8000

-- ============================================================================
-- network.rs
-- ============================================================================

namespace Network

/-- Source: `LISTEN_PORT: u16 = 23` (telnet). -/
def LISTEN_PORT : Nat := 23

/-- Source: `SSH_PORT: u16 = 22`. -/
def SSH_PORT : Nat := 22

/-- Wrap-around modulus of the `u64` statistics counters. -/
def U64_MOD : Nat := 2 ^ 64

/-- Source: `NetStats`: the statistics record guarded by the `NET_STATS` spinlock. -/
structure NetStats where
  bytes_rx : Nat
  bytes_tx : Nat
  connections : Nat
  deriving DecidableEq, Repr

/-- Source: `NetStats::new()`. -/
def NetStats.new : NetStats :=
  { bytes_rx := 0, bytes_tx := 0, connections := 0 }

/-- Source: `increment_connections()`: `NET_STATS.lock().connections += 1` (wrapping `u64`). -/
def increment_connections (s : NetStats) : NetStats :=
  { s with connections := (s.connections + 1) % U64_MOD }

/-- Source: `add_bytes_rx(bytes)`: `NET_STATS.lock().bytes_rx += bytes` (wrapping `u64`). -/
def add_bytes_rx (s : NetStats) (bytes : Nat) : NetStats :=
  { s with bytes_rx := (s.bytes_rx + bytes) % U64_MOD }

/-- Source: `add_bytes_tx(bytes)`: `NET_STATS.lock().bytes_tx += bytes` (wrapping `u64`). -/
def add_bytes_tx (s : NetStats) (bytes : Nat) : NetStats :=
  { s with bytes_tx := (s.bytes_tx + bytes) % U64_MOD }

/-- Source: `get_stats()`: returns `(connections, bytes_rx, bytes_tx)`. -/
def get_stats (s : NetStats) : Nat × Nat × Nat :=
  (s.connections, s.bytes_rx, s.bytes_tx)

/-- The two smoltcp TCP socket states that `init` produces (`State::Closed` for a
fresh socket, `State::Listen` after a successful `listen`). -/
inductive TcpState
  | Closed
  | Listen
  deriving DecidableEq, Repr

/-- A smoltcp TCP socket as visible to `init`: its local listening port (if any)
and its state. `TcpSocket::new(rx_buffer, tx_buffer)` yields a closed socket. -/
structure TcpSocketModel where
  localPort : Option Nat
  state : TcpState
  deriving DecidableEq, Repr

/-- Source: `TcpSocket::new(...)`: fresh socket, closed, no local endpoint. -/
def TcpSocketModel.new : TcpSocketModel :=
  { localPort := none, state := TcpState.Closed }

/-- The smoltcp `Interface` as configured by `init`: hardware address from the
device MAC, IP CIDR list filled by `update_ip_addrs`, and the default IPv4
route set by `add_default_ipv4_route`. -/
structure IfaceModel where
  hwAddr : List Nat
  ipAddrs : List (Nat × Nat × Nat × Nat × Nat)
  gatewayV4 : Option (Nat × Nat × Nat × Nat)
  deriving DecidableEq, Repr

/-- Source: `NetStack`: the record published into `NET_STACK` on success. The virtio
device itself is identified by the MMIO slot index it was found at; socket
handles are the indices assigned by `SocketSet::add` (0 then 1). -/
structure NetStack where
  deviceSlot : Nat
  iface : IfaceModel
  sockets : List TcpSocketModel
  tcp_handle : Nat
  ssh_handle : Nat
  was_connected : Bool
  ssh_was_connected : Bool
  deriving DecidableEq, Repr

/-- The two spinlock-protected globals of network.rs: `NET_STACK` (the
option-cell holding the stack) and `NET_INITIALIZED` (here `initDone`). -/
structure NetGlobals where
  net_stack : Option NetStack
  initDone : Bool
  deriving DecidableEq, Repr

/-- The boot-time values: `Spinlock::new(None)` and `Spinlock::new(false)`. -/
def NetGlobals.boot : NetGlobals :=
  { net_stack := none, initDone := false }

/-- Source: `VIRTIO_MMIO_ADDRS`: QEMU virt machine virtio MMIO addresses. -/
def VIRTIO_MMIO_ADDRS : List Nat :=
  [0x0a000000, 0x0a000200, 0x0a000400, 0x0a000600,
   0x0a000800, 0x0a000a00, 0x0a000c00, 0x0a000e00]

/-- Environment of `init`: outcomes of the volatile MMIO device-ID reads and of
the external virtio-drivers / smoltcp calls, indexed by slot number `i`. -/
structure NetEnv where
  deviceId : Nat → Nat
  transportOk : Nat → Bool
  netOk : Nat → Bool
  mac : Nat → List Nat
  listenTelnetOk : Bool
  listenSshOk : Bool

/-- A slot passes the whole probe: its device-ID register reads 1 (network),
`MmioTransport::new` succeeds and `VirtIONetRaw::new` succeeds. -/
def slotWorks (env : NetEnv) (i : Nat) : Bool :=
  env.deviceId i == 1 && env.transportOk i && env.netOk i

/-- The device-scan loop of `init` over the enumerated `(i, addr)` pairs of
`VIRTIO_MMIO_ADDRS`: skip when the device-ID is not 1, when `NonNull::new`
fails (address 0), or when transport / device construction fails; stop at the
first slot that yields a working device. -/
def scanSlots (env : NetEnv) : List (Nat × Nat) → Option Nat
  | [] => none
  | (i, addr) :: rest =>
    if env.deviceId i != 1 then scanSlots env rest
    else if addr == 0 then scanSlots env rest
    else if !env.transportOk i then scanSlots env rest
    else if !env.netOk i then scanSlots env rest
    else some i

/-- The `found_device` computation of `init`: first working slot, if any. -/
def findNetDevice (env : NetEnv) : Option Nat :=
  scanSlots env VIRTIO_MMIO_ADDRS.enum

/-- Error string `"No virtio-net device found"`. -/
def errNoDevice : String := "No virtio-net device found"

/-- Error string `"Failed to listen on telnet port"`. -/
def errListenTelnet : String := "Failed to listen on telnet port"

/-- Error string `"Failed to listen on SSH port"`. -/
def errListenSsh : String := "Failed to listen on SSH port"

/-- Source: `Result<(), &'static str>` as returned by `init`. -/
inductive NetResult
  | ok
  | error (msg : String)
  deriving DecidableEq, Repr

/-- Source: `NetResult.isOk`. -/
def NetResult.isOk : NetResult → Bool
  | NetResult.ok => true
  | NetResult.error _ => false

/-- Source: `network::init(_dtb_ptr)`: scan the MMIO slots for a virtio-net device,
configure the interface (IP 10.0.2.15/24, gateway 10.0.2.2), create the telnet
and SSH sockets, listen on ports 23 and 22, and only then publish the stack
into `NET_STACK` and set `NET_INITIALIZED`.  Takes the guarded globals as
explicit state and returns the `Result` together with the new globals.  Note
the source performs no already-initialized check: the input globals are only
returned unchanged on the error paths (which all occur before the final
store). -/
def init (env : NetEnv) (_dtb_ptr : Nat) (g : NetGlobals) : NetResult × NetGlobals :=
  match findNetDevice env with
  | none => (NetResult.error errNoDevice, g)
  | some slot =>
    let iface : IfaceModel :=
      { hwAddr := env.mac slot
        ipAddrs := [(10, 0, 2, 15, 24)]
        gatewayV4 := some (10, 0, 2, 2) }
    let tcp_socket := TcpSocketModel.new
    let ssh_socket := TcpSocketModel.new
    let sockets := [tcp_socket, ssh_socket]
    let tcp_handle := 0
    let ssh_handle := 1
    if !env.listenTelnetOk then (NetResult.error errListenTelnet, g)
    else
      let sockets := sockets.set tcp_handle
        { tcp_socket with localPort := some LISTEN_PORT, state := TcpState.Listen }
      if !env.listenSshOk then (NetResult.error errListenSsh, g)
      else
        let sockets := sockets.set ssh_handle
          { ssh_socket with localPort := some SSH_PORT, state := TcpState.Listen }
        (NetResult.ok,
          { net_stack := some
              { deviceSlot := slot
                iface := iface
                sockets := sockets
                tcp_handle := tcp_handle
                ssh_handle := ssh_handle
                was_connected := false
                ssh_was_connected := false }
            initDone := true })

/-- Source: `is_ready()`: `*NET_INITIALIZED.lock()`. -/
def is_ready (g : NetGlobals) : Bool := g.initDone

/-- The stack `init` publishes on success, as a function of the environment and
the found slot: IP 10.0.2.15/24, gateway 10.0.2.2, telnet socket (handle 0)
listening on 23, SSH socket (handle 1) listening on 22. -/
def okStack (env : NetEnv) (slot : Nat) : NetStack :=
  { deviceSlot := slot
    iface :=
      { hwAddr := env.mac slot
        ipAddrs := [(10, 0, 2, 15, 24)]
        gatewayV4 := some (10, 0, 2, 2) }
    sockets :=
      [{ localPort := some LISTEN_PORT, state := TcpState.Listen },
       { localPort := some SSH_PORT, state := TcpState.Listen }]
    tcp_handle := 0
    ssh_handle := 1
    was_connected := false
    ssh_was_connected := false }

end Network

-- ============================================================================
-- main.rs
-- ============================================================================

namespace Main

/-- Machine-level effects a halt path may perform: the `wfi` instruction and an
explicit IRQ-mask operation. -/
inductive HaltInstr
  | wfi
  | maskIrqs
  deriving DecidableEq, Repr

/-- Panic source location (`PanicInfo::location()`): file and line. -/
structure SourceLocation where
  file : String
  line : Nat
  deriving DecidableEq, Repr

/-- Observable behaviour of the `panic` handler: the `console::print` calls in
order, any instructions executed before the final loop, and the body of the
final infinite loop. -/
structure PanicBehavior where
  output : List String
  preLoopInstrs : List HaltInstr
  loopBody : List HaltInstr
  deriving DecidableEq, Repr

/-- The `#[panic_handler] fn panic(info)` of main.rs: prints the banner, the
location when available (`"Location: "`, file, `":"`, line, newline), then
`"Message: "` and the formatted message, and finally enters `loop {}` — an
empty busy loop with no `wfi` and no IRQ-mask operation. -/
def panic (location : Option SourceLocation) (message : String) : PanicBehavior :=
  { output :=
      ["\n\n!!! PANIC !!!\n"] ++
      (match location with
       | some l => ["Location: ", l.file, ":", toString l.line, "\n"]
       | none => []) ++
      ["Message: ", message ++ "\n"]
    preLoopInstrs := []
    loopBody := [] }

/-- Boot-sequence events of `rust_start`, in program order. -/
inductive BootEvent
  | gicInit
  | exceptionsInit
  | timerInit
  | rtcInit
  | threadingInit
  | netInitCall
  | listInterfaces
  | enableSchedulerSgi
  | registerTimerIrq (irq : Nat)
  | enableTimer (period_us : Nat)
  | runTests
  | spawnNetPollThread
  | netReadyMsg
  | enterIdleLoop
  deriving DecidableEq, Repr

/-- Where a boot run ends up. -/
inductive BootOutcome
  | haltNotEnoughRam
  | haltAllocFailed
  | haltTestsFailed
  | panicSpawnFailed
  | stuckWaitingNetReady
  | idleLoop
  deriving DecidableEq, Repr

/-- Environment of `rust_start`: outcomes of the fallible steps. -/
structure BootEnv where
  allocOk : Bool
  rtcOk : Bool
  net : Network.NetEnv
  testsPass : Bool
  spawnNetPollOk : Bool

/-- The result of a boot: the events emitted (in order), the terminal
state, and the final contents of the network globals. -/
structure BootResult where
  events : List BootEvent
  outcome : BootOutcome
  netGlobals : Network.NetGlobals

/-- Source: `RAM_BASE: usize = 0x40000000`. -/
def RAM_BASE : Nat := 0x40000000

/-- Source: `ram_size = 128 * 1024 * 1024`. -/
def ram_size : Nat := 128 * 1024 * 1024

/-- Source: `code_and_stack = ram_size / 16`. -/
def code_and_stack : Nat := ram_size / 16

/-- Source: `rust_start`: heap check and allocator bring-up (halting on failure), GIC /
exception / timer / RTC / threading bring-up, the one-shot `network::init(0)`
call, arming of preemption (scheduler SGI, timer IRQ 30 handler, 10 ms timer),
the test run (halting in a `wfi` loop on failure), the unconditional spawn of
the network poll thread (`expect` panics on failure), the
`while !network::is_ready()` yield loop, and the final idle loop.  `is_ready`
can only be set by `network::init`, which has already run, so a boot whose
`init` failed stays in the wait loop forever (`stuckWaitingNetReady`). -/
def rust_start (env : BootEnv) : BootResult :=
  if ram_size ≤ code_and_stack then
    { events := [], outcome := BootOutcome.haltNotEnoughRam,
      netGlobals := Network.NetGlobals.boot }
  else if !env.allocOk then
    { events := [], outcome := BootOutcome.haltAllocFailed,
      netGlobals := Network.NetGlobals.boot }
  else
    let r := Network.init env.net 0 Network.NetGlobals.boot
    let g := r.2
    let pre : List BootEvent :=
      [BootEvent.gicInit, BootEvent.exceptionsInit, BootEvent.timerInit,
       BootEvent.rtcInit, BootEvent.threadingInit, BootEvent.netInitCall,
       BootEvent.listInterfaces, BootEvent.enableSchedulerSgi,
       BootEvent.registerTimerIrq 30, BootEvent.enableTimer 10000,
       BootEvent.runTests]
    if !env.testsPass then
      { events := pre, outcome := BootOutcome.haltTestsFailed, netGlobals := g }
    else if !env.spawnNetPollOk then
      { events := pre ++ [BootEvent.spawnNetPollThread],
        outcome := BootOutcome.panicSpawnFailed, netGlobals := g }
    else if Network.is_ready g then
      { events := pre ++ [BootEvent.spawnNetPollThread, BootEvent.netReadyMsg,
                          BootEvent.listInterfaces, BootEvent.enterIdleLoop],
        outcome := BootOutcome.idleLoop, netGlobals := g }
    else
      { events := pre ++ [BootEvent.spawnNetPollThread],
        outcome := BootOutcome.stuckWaitingNetReady, netGlobals := g }

end Main

-- ============================================================================
-- threading (modelled from the spec; threading.rs is not among the sources)
-- ============================================================================

namespace Threading

/-- Modelled from the spec: thread states of a TCB (`Ready`, `Running`,
`Blocked`, `Terminated`); `threading.rs` itself is not under `src/`. -/
inductive ThreadState
  | Ready
  | Running
  | Blocked
  | Terminated
  deriving DecidableEq, Repr

/-- Modelled from the spec: thread kinds (`Cooperative`, `Preemptible`). -/
inductive ThreadKind
  | Cooperative
  | Preemptible
  deriving DecidableEq, Repr

/-- Modelled from the spec: a Thread Control Block with its `tid`, `kind` and
`state` (the fields the reaping claims observe). -/
structure TCB where
  tid : Nat
  kind : ThreadKind
  state : ThreadState
  deriving DecidableEq, Repr

/-- Modelled from the spec: the scheduler's slab of live TCBs together with the
tid of the current (running, calling) thread.  The terminated list is the set
of TCBs whose `state` is `Terminated`. -/
structure ThreadTable where
  tcbs : List TCB
  currentTid : Nat
  deriving DecidableEq, Repr

/-- Modelled from the spec: a TCB is reaped by `cleanup_terminated` when it is
`Terminated` and is not the caller ("Reaps only threads other than the
caller"). -/
def reapable (t : ThreadTable) (tcb : TCB) : Bool :=
  tcb.state == ThreadState.Terminated && tcb.tid != t.currentTid

/-- Modelled from the spec: `cleanup_terminated() -> count` iterates the
terminated list, frees each such TCB's stack and the TCB itself, and returns
the number reaped; `threading.rs` is not under `src/`, so this follows spec
section 4.5 and property P3. -/
def cleanup_terminated (t : ThreadTable) : Nat × ThreadTable :=
  ((t.tcbs.filter (reapable t)).length,
   { t with tcbs := t.tcbs.filter (fun tcb => !reapable t tcb) })

/-- Modelled from the spec: `thread_count()` counts the live TCBs. -/
def thread_count (t : ThreadTable) : Nat := t.tcbs.length

end Threading

-- ============================================================================
-- ssh_server.rs
-- ============================================================================

namespace SshServer

/-- Source: `MAX_CONNECTIONS: usize = 8`. -/
def MAX_CONNECTIONS : Nat := 8

/-- Source: `SSH_PORT: u16 = 22` (ssh_server.rs copy). -/
def SSH_SERVER_PORT : Nat := 22

/-- Source: `Vec::swap_remove(i)`: replace element `i` with the last element and pop
the last element. -/
def swapRemove (l : List Nat) (i : Nat) : List Nat :=
  match l with
  | [] => []
  | a :: t => ((a :: t).set i ((a :: t).getLast (by simp))).dropLast

/-- The poll phase of `run`'s accept loop: `while i < connections.len()`, poll
connection `i`; when its future is `Ready` the connection is `swap_remove`d,
otherwise `i` advances.  `ready c` records whether the session future of
connection id `c` completes when polled this iteration. -/
def pollPhase (ready : Nat → Bool) (i : Nat) (conns : List Nat) : List Nat :=
  if h : i < conns.length then
    if ready (conns.get ⟨i, h⟩) then
      pollPhase ready i (swapRemove conns i)
    else
      pollPhase ready (i + 1) conns
  else conns
termination_by conns.length - i
decreasing_by
  · have hlen : (swapRemove conns i).length = conns.length - 1 := by
      cases conns with
      | nil => simp at h
      | cons a t => simp [swapRemove, List.length_set, List.length_dropLast]
    omega
  · omega

/-- Outcome of the accept step this iteration: a connection was accepted, the
accept returned an error, or (with active connections) the 10 ms timeout
fired. -/
inductive AcceptOutcome
  | accepted
  | acceptErr
  | timedOut
  deriving DecidableEq, Repr

/-- Loop state of `run`: the ids of the active connections (the `connections`
vector), the `next_id` counter (wrapping `usize`), and whether a pre-created
listening socket is currently held in `listen_socket`. -/
structure SshState where
  connections : List Nat
  next_id : Nat
  listenSocketLive : Bool
  deriving DecidableEq, Repr

/-- State at the top of the first iteration: `Vec::new()`, `next_id = 0`,
`listen_socket = None`. -/
def SshState.start : SshState :=
  { connections := [], next_id := 0, listenSocketLive := false }

/-- One iteration of `run`'s loop: poll all active connections (removing the
finished ones), then — only when `connections.len() < MAX_CONNECTIONS` — ensure
a listening socket exists and try to accept, appending a new connection with id
`next_id` on success (accept errors and timeouts drop the listening socket);
at capacity the loop only sleeps 1 ms. -/
def sshStep (ready : Nat → Bool) (acc : AcceptOutcome) (s : SshState) : SshState :=
  let conns := pollPhase ready 0 s.connections
  if conns.length < MAX_CONNECTIONS then
    match acc with
    | AcceptOutcome.accepted =>
      { connections := conns ++ [s.next_id],
        next_id := (s.next_id + 1) % Network.U64_MOD,
        listenSocketLive := false }
    | AcceptOutcome.acceptErr =>
      { connections := conns, next_id := s.next_id, listenSocketLive := false }
    | AcceptOutcome.timedOut =>
      { connections := conns, next_id := s.next_id, listenSocketLive := false }
  else
    { connections := conns, next_id := s.next_id,
      listenSocketLive := s.listenSocketLive }

/-- Environment of `run`: per-iteration oracles for which session futures
complete and what the accept path observes. -/
structure SshEnv where
  ready : Nat → Nat → Bool
  accept : Nat → AcceptOutcome

/-- The state of `run`'s loop at the top of iteration `n`. -/
def sshRun (env : SshEnv) : Nat → SshState
  | 0 => SshState.start
  | n + 1 => sshStep (env.ready n) (env.accept n) (sshRun env n)

end SshServer

-- ============================================================================
-- Concrete environments used by counterexamples and witnesses
-- ============================================================================

/-- A scan environment in which no MMIO slot holds a network device (every
device-ID register reads 0). -/
def envNoDev : Network.NetEnv :=
  { deviceId := fun _ => 0
    transportOk := fun _ => true
    netOk := fun _ => true
    mac := fun _ => [0x52, 0x54, 0x00, 0x12, 0x34, 0x56]
    listenTelnetOk := true
    listenSshOk := true }

/-- A scan environment with a working virtio-net device in slot 0 and a TCP/IP
stack that accepts both listens. -/
def envDev0 : Network.NetEnv :=
  { deviceId := fun i => if i == 0 then 1 else 0
    transportOk := fun _ => true
    netOk := fun _ => true
    mac := fun _ => [0x52, 0x54, 0x00, 0x12, 0x34, 0x56]
    listenTelnetOk := true
    listenSshOk := true }

/-- As `envDev0`, but the stack refuses the telnet listen. -/
def envDevNoTelnet : Network.NetEnv :=
  { envDev0 with listenTelnetOk := false }

/-- As `envDev0`, but the stack refuses the SSH listen. -/
def envDevNoSsh : Network.NetEnv :=
  { envDev0 with listenSshOk := false }

/-- A boot in which everything works except that no network device exists. -/
def bootNoDev : Main.BootEnv :=
  { allocOk := true, rtcOk := true, net := envNoDev,
    testsPass := true, spawnNetPollOk := true }

/-- A fully working boot: device in slot 0, tests pass, spawn succeeds. -/
def bootDev0 : Main.BootEnv :=
  { allocOk := true, rtcOk := true, net := envDev0,
    testsPass := true, spawnNetPollOk := true }

/-- A concrete panic location used by the panic-handler counterexample. -/
def exLoc : Main.SourceLocation := { file := "src/main.rs", line := 42 }

-- ============================================================================
-- Shared lemmas
-- ============================================================================

/-- Splitting a list by a Boolean predicate preserves the total length. -/
theorem filter_not_length_add {α : Type} (p : α → Bool) (l : List α) :
    (l.filter fun x => !p x).length + (l.filter p).length = l.length := by
  induction l with
  | nil => simp
  | cons a tl ih =>
    by_cases h : p a = true
    · simp [List.filter, h]
      omega
    · simp only [Bool.not_eq_true] at h
      simp [List.filter, h]
      omega

/-- Filtering by `p` after keeping only the elements refuting `p` gives `[]`. -/
theorem filter_filter_not {α : Type} (p : α → Bool) (l : List α) :
    ((l.filter fun x => !p x).filter p) = [] := by
  induction l with
  | nil => simp
  | cons a tl ih =>
    by_cases h : p a = true
    · simp [List.filter, h, ih]
    · simp only [Bool.not_eq_true] at h
      simp [List.filter, h, ih]

-- ============================================================================
-- Claim C10 — statistics mutators are frame-exact
-- ============================================================================

/-- C10: each statistics mutator changes only its own field of the
`(connections, bytes_rx, bytes_tx)` triple returned by `get_stats`:
`increment_connections` adds exactly 1 (as a wrapping `u64`) to `connections`
and leaves `bytes_rx` and `bytes_tx` unchanged; `add_bytes_rx n` adds exactly
`n` to `bytes_rx` only; `add_bytes_tx n` adds exactly `n` to `bytes_tx`
only. -/
theorem claim_C10 (s : Network.NetStats) (n : Nat) :
    Network.get_stats (Network.increment_connections s) =
      ((s.connections + 1) % Network.U64_MOD, s.bytes_rx, s.bytes_tx) ∧
    Network.get_stats (Network.add_bytes_rx s n) =
      (s.connections, (s.bytes_rx + n) % Network.U64_MOD, s.bytes_tx) ∧
    Network.get_stats (Network.add_bytes_tx s n) =
      (s.connections, s.bytes_rx, (s.bytes_tx + n) % Network.U64_MOD) :=
  ⟨rfl, rfl, rfl⟩

-- ============================================================================
-- Claim C5 — cleanup_terminated reaps exactly what it counts
-- ============================================================================

/-- C5: when `cleanup_terminated()` returns `n`, `thread_count()` observed
right after the call equals the count observed right before minus exactly `n`
(stated additively: after + n = before, with n ≤ before), and afterwards no
terminated TCB other than the caller's remains. -/
theorem claim_C5 (t : Threading.ThreadTable) :
    Threading.thread_count (Threading.cleanup_terminated t).2 +
        (Threading.cleanup_terminated t).1 = Threading.thread_count t ∧
    (Threading.cleanup_terminated t).1 ≤ Threading.thread_count t ∧
    ((Threading.cleanup_terminated t).2.tcbs.filter (Threading.reapable t)) = [] := by
  unfold Threading.cleanup_terminated Threading.thread_count
  refine ⟨filter_not_length_add (Threading.reapable t) t.tcbs, ?_, ?_⟩
  · exact List.length_filter_le _ _
  · exact filter_filter_not (Threading.reapable t) t.tcbs

-- ============================================================================
-- Claim C3 — panic handler output and halt mode
-- ============================================================================

/-- C3 counterexample: at a concrete panic (`src/main.rs:42`, message
`"test panic"`) the handler prints the banner, location and message in the
claimed order, but its final infinite loop is `loop {}`: its body contains no
wait-for-interrupt instruction, and the handler masks no IRQs before entering
it — refuting the claimed "wait-for-interrupt loop with IRQs masked". -/
theorem claim_C3_counterexample :
    (Main.panic (some exLoc) "test panic").output =
      ["\n\n!!! PANIC !!!\n", "Location: ", "src/main.rs", ":", "42", "\n",
       "Message: ", "test panic\n"] ∧
    (Main.panic (some exLoc) "test panic").loopBody = [] ∧
    Main.HaltInstr.wfi ∉ (Main.panic (some exLoc) "test panic").loopBody ∧
    Main.HaltInstr.maskIrqs ∉ (Main.panic (some exLoc) "test panic").preLoopInstrs := by
  refine ⟨by decide, rfl, by simp [Main.panic], by simp [Main.panic]⟩

/-- C3 (amended): on every panic the handler prints `"!!! PANIC !!!"` first,
then the source location when one is available, then the panic message, and
then halts forever in an infinite **busy** loop (`loop {}`) — it executes no
wait-for-interrupt instruction and performs no IRQ masking itself, and never
returns. -/
theorem claim_C3_amended (location : Option Main.SourceLocation) (message : String) :
    (Main.panic location message).output.head? = some "\n\n!!! PANIC !!!\n" ∧
    (∀ l, location = some l →
      (Main.panic location message).output =
        ["\n\n!!! PANIC !!!\n", "Location: ", l.file, ":", toString l.line, "\n",
         "Message: ", message ++ "\n"]) ∧
    (location = none →
      (Main.panic location message).output =
        ["\n\n!!! PANIC !!!\n", "Message: ", message ++ "\n"]) ∧
    (Main.panic location message).loopBody = [] ∧
    (Main.panic location message).preLoopInstrs = [] := by
  refine ⟨?_, ?_, ?_, rfl, rfl⟩
  · cases location <;> rfl
  · intro l hl
    subst hl
    rfl
  · intro hl
    subst hl
    rfl

-- ============================================================================
-- Lemmas about Network.init
-- ============================================================================

/-- When no slot yields a working device, `init` fails with the
device-not-found error and leaves the globals untouched. -/
theorem init_none (env : Network.NetEnv) (dtb : Nat) (g : Network.NetGlobals)
    (hfd : Network.findNetDevice env = none) :
    Network.init env dtb g = (Network.NetResult.error Network.errNoDevice, g) := by
  unfold Network.init
  rw [hfd]

/-- When a device is found but the telnet listen is refused, `init` fails with
the telnet listen error and leaves the globals untouched. -/
theorem init_noTelnet (env : Network.NetEnv) (dtb : Nat) (g : Network.NetGlobals)
    (slot : Nat) (hfd : Network.findNetDevice env = some slot)
    (hT : env.listenTelnetOk = false) :
    Network.init env dtb g = (Network.NetResult.error Network.errListenTelnet, g) := by
  unfold Network.init
  rw [hfd]
  simp [hT]

/-- When a device is found, the telnet listen succeeds and the SSH listen is
refused, `init` fails with the SSH listen error and leaves the globals
untouched. -/
theorem init_noSsh (env : Network.NetEnv) (dtb : Nat) (g : Network.NetGlobals)
    (slot : Nat) (hfd : Network.findNetDevice env = some slot)
    (hT : env.listenTelnetOk = true) (hS : env.listenSshOk = false) :
    Network.init env dtb g = (Network.NetResult.error Network.errListenSsh, g) := by
  unfold Network.init
  rw [hfd]
  simp [hT, hS]

/-- When a device is found and both listens succeed, `init` returns `Ok` and
publishes the built stack, setting `NET_INITIALIZED`. -/
theorem init_ok_eq (env : Network.NetEnv) (dtb : Nat) (g : Network.NetGlobals)
    (slot : Nat) (hfd : Network.findNetDevice env = some slot)
    (hT : env.listenTelnetOk = true) (hS : env.listenSshOk = true) :
    Network.init env dtb g =
      (Network.NetResult.ok,
       { net_stack := some (Network.okStack env slot), initDone := true }) := by
  unfold Network.init
  rw [hfd]
  simp [hT, hS, Network.okStack]

/-- Whenever `init` returns an error, the guarded globals are exactly the input
globals: publishing happens only on the all-success path. -/
theorem init_err_frame (env : Network.NetEnv) (dtb : Nat) (g : Network.NetGlobals)
    (e : String) (h : (Network.init env dtb g).1 = Network.NetResult.error e) :
    (Network.init env dtb g).2 = g := by
  cases hfd : Network.findNetDevice env with
  | none => rw [init_none env dtb g hfd]
  | some slot =>
    cases hT : env.listenTelnetOk with
    | false => rw [init_noTelnet env dtb g slot hfd hT]
    | true =>
      cases hS : env.listenSshOk with
      | false => rw [init_noSsh env dtb g slot hfd hT hS]
      | true =>
        rw [init_ok_eq env dtb g slot hfd hT hS] at h
        exact absurd h (by simp)

/-- Whenever `init` returns `Ok`, a device was found and both listens
succeeded, and the final globals hold the built stack with the ready flag
set. -/
theorem init_ok_inv (env : Network.NetEnv) (dtb : Nat) (g : Network.NetGlobals)
    (h : (Network.init env dtb g).1 = Network.NetResult.ok) :
    ∃ slot, Network.findNetDevice env = some slot ∧
      env.listenTelnetOk = true ∧ env.listenSshOk = true ∧
      (Network.init env dtb g).2 =
        { net_stack := some (Network.okStack env slot), initDone := true } := by
  cases hfd : Network.findNetDevice env with
  | none =>
    rw [init_none env dtb g hfd] at h
    exact absurd h (by simp)
  | some slot =>
    cases hT : env.listenTelnetOk with
    | false =>
      rw [init_noTelnet env dtb g slot hfd hT] at h
      exact absurd h (by simp)
    | true =>
      cases hS : env.listenSshOk with
      | false =>
        rw [init_noSsh env dtb g slot hfd hT hS] at h
        exact absurd h (by simp)
      | true =>
        exact ⟨slot, rfl, rfl, rfl, by rw [init_ok_eq env dtb g slot hfd hT hS]⟩

/-- The result of `init` is entirely independent of the guarded globals it
starts from: it never reads `NET_STACK` or `NET_INITIALIZED`. -/
theorem init_ignores_state (env : Network.NetEnv) (dtb : Nat)
    (g g' : Network.NetGlobals) :
    (Network.init env dtb g).1 = (Network.init env dtb g').1 ∧
    ((Network.init env dtb g).1 = Network.NetResult.ok →
      (Network.init env dtb g).2 = (Network.init env dtb g').2) := by
  cases hfd : Network.findNetDevice env with
  | none =>
    rw [init_none env dtb g hfd, init_none env dtb g' hfd]
    exact ⟨rfl, by intro h; exact absurd h (by simp)⟩
  | some slot =>
    cases hT : env.listenTelnetOk with
    | false =>
      rw [init_noTelnet env dtb g slot hfd hT, init_noTelnet env dtb g' slot hfd hT]
      exact ⟨rfl, by intro h; exact absurd h (by simp)⟩
    | true =>
      cases hS : env.listenSshOk with
      | false =>
        rw [init_noSsh env dtb g slot hfd hT hS, init_noSsh env dtb g' slot hfd hT hS]
        exact ⟨rfl, by intro h; exact absurd h (by simp)⟩
      | true =>
        rw [init_ok_eq env dtb g slot hfd hT hS, init_ok_eq env dtb g' slot hfd hT hS]
        exact ⟨rfl, fun _ => rfl⟩

-- ============================================================================
-- Claim C4 — publishing is the final, success-only step of init
-- ============================================================================

/-- C4: for a boot-time execution of `init` (globals start as `None` / not
ready), an error return leaves the option-cell `None` and `is_ready()` false,
while an `Ok` return leaves the stack published and `is_ready()` true. -/
theorem claim_C4 (env : Network.NetEnv) (dtb : Nat) :
    ((Network.init env dtb Network.NetGlobals.boot).1.isOk = false →
      (Network.init env dtb Network.NetGlobals.boot).2.net_stack = none ∧
      Network.is_ready (Network.init env dtb Network.NetGlobals.boot).2 = false) ∧
    ((Network.init env dtb Network.NetGlobals.boot).1.isOk = true →
      ((Network.init env dtb Network.NetGlobals.boot).2.net_stack).isSome = true ∧
      Network.is_ready (Network.init env dtb Network.NetGlobals.boot).2 = true) := by
  constructor
  · intro h
    cases hr : (Network.init env dtb Network.NetGlobals.boot).1 with
    | ok => rw [hr] at h; simp [Network.NetResult.isOk] at h
    | error e =>
      have := init_err_frame env dtb Network.NetGlobals.boot e hr
      rw [this]
      exact ⟨rfl, rfl⟩
  · intro h
    cases hr : (Network.init env dtb Network.NetGlobals.boot).1 with
    | error e => rw [hr] at h; simp [Network.NetResult.isOk] at h
    | ok =>
      obtain ⟨slot, _, _, _, h2⟩ := init_ok_inv env dtb Network.NetGlobals.boot hr
      rw [h2]
      exact ⟨rfl, rfl⟩

/-- C4 witness: the theorem applied at a concrete device-less environment
(error path) and at a concrete working environment (success path). -/
theorem claim_C4_witness :
    ((Network.init envNoDev 0 Network.NetGlobals.boot).2.net_stack = none ∧
     Network.is_ready (Network.init envNoDev 0 Network.NetGlobals.boot).2 = false) ∧
    (((Network.init envDev0 0 Network.NetGlobals.boot).2.net_stack).isSome = true ∧
     Network.is_ready (Network.init envDev0 0 Network.NetGlobals.boot).2 = true) :=
  ⟨(claim_C4 envNoDev 0).1 (by decide), (claim_C4 envDev0 0).2 (by decide)⟩

-- ============================================================================
-- Claim C2 — there is no AlreadyInitialized guard in init
-- ============================================================================

/-- C2 counterexample: with a working device in slot 0, a first call to `init`
from the boot globals succeeds, and a second call on the resulting globals does
NOT fail: it returns `Ok` again and the option-cell again holds a stack —
there is no `AlreadyInitialized` error. -/
theorem claim_C2_counterexample :
    (Network.init envDev0 0 Network.NetGlobals.boot).1 = Network.NetResult.ok ∧
    (Network.init envDev0 0
        (Network.init envDev0 0 Network.NetGlobals.boot).2).1 = Network.NetResult.ok ∧
    ((Network.init envDev0 0
        (Network.init envDev0 0 Network.NetGlobals.boot).2).2.net_stack).isSome = true := by
  refine ⟨by decide, by decide, by decide⟩

/-- C2 (amended): `init` performs no already-initialized check — its result is
independent of the current globals — so a second call after a successful first
call re-runs the full initialization and, with the device still present,
returns `Ok` and republishes the (re)built stack rather than failing with an
`AlreadyInitialized` error. -/
theorem claim_C2_amended (env : Network.NetEnv) (dtb : Nat)
    (hfirst : (Network.init env dtb Network.NetGlobals.boot).1 = Network.NetResult.ok) :
    (Network.init env dtb
        (Network.init env dtb Network.NetGlobals.boot).2).1 = Network.NetResult.ok ∧
    (Network.init env dtb
        (Network.init env dtb Network.NetGlobals.boot).2).2 =
      (Network.init env dtb Network.NetGlobals.boot).2 := by
  have hres := init_ignores_state env dtb
    (Network.init env dtb Network.NetGlobals.boot).2 Network.NetGlobals.boot
  have h1 : (Network.init env dtb
      (Network.init env dtb Network.NetGlobals.boot).2).1 = Network.NetResult.ok := by
    rw [hres.1, hfirst]
  exact ⟨h1, hres.2 h1⟩

/-- C2 witness: the amended theorem applied at the concrete slot-0
environment. -/
theorem claim_C2_witness :
    (Network.init envDev0 0
        (Network.init envDev0 0 Network.NetGlobals.boot).2).1 = Network.NetResult.ok ∧
    (Network.init envDev0 0
        (Network.init envDev0 0 Network.NetGlobals.boot).2).2 =
      (Network.init envDev0 0 Network.NetGlobals.boot).2 :=
  claim_C2_amended envDev0 0 (by decide)

-- ============================================================================
-- Claim C8 — success-path configuration and listen failures
-- ============================================================================

/-- C8: on every successful return of `init` the published interface carries
the static address 10.0.2.15/24 and default gateway 10.0.2.2 and the published
socket set is exactly two listening sockets — port 23 (telnet) then port 22
(SSH); a refused telnet listen yields the telnet listen error and a refused SSH
listen yields the SSH listen error. -/
theorem claim_C8 (env : Network.NetEnv) (dtb : Nat) (g : Network.NetGlobals) :
    ((Network.init env dtb g).1 = Network.NetResult.ok →
      ((Network.init env dtb g).2.net_stack.map fun s => s.iface.ipAddrs) =
          some [(10, 0, 2, 15, 24)] ∧
      ((Network.init env dtb g).2.net_stack.map fun s => s.iface.gatewayV4) =
          some (some (10, 0, 2, 2)) ∧
      ((Network.init env dtb g).2.net_stack.map fun s => s.sockets) =
          some [{ localPort := some 23, state := Network.TcpState.Listen },
                { localPort := some 22, state := Network.TcpState.Listen }]) ∧
    ((Network.findNetDevice env).isSome = true → env.listenTelnetOk = false →
      (Network.init env dtb g).1 = Network.NetResult.error Network.errListenTelnet) ∧
    ((Network.findNetDevice env).isSome = true → env.listenTelnetOk = true →
      env.listenSshOk = false →
      (Network.init env dtb g).1 = Network.NetResult.error Network.errListenSsh) := by
  refine ⟨?_, ?_, ?_⟩
  · intro h
    obtain ⟨slot, _, _, _, h2⟩ := init_ok_inv env dtb g h
    rw [h2]
    refine ⟨rfl, rfl, rfl⟩
  · intro hfd hT
    cases hfd' : Network.findNetDevice env with
    | none => rw [hfd'] at hfd; simp at hfd
    | some slot => rw [init_noTelnet env dtb g slot hfd' hT]
  · intro hfd hT hS
    cases hfd' : Network.findNetDevice env with
    | none => rw [hfd'] at hfd; simp at hfd
    | some slot => rw [init_noSsh env dtb g slot hfd' hT hS]

/-- C8 witness: the theorem applied at the concrete working environment (for
the success shape) and at the two concrete listen-refusing environments. -/
theorem claim_C8_witness :
    ((Network.init envDev0 0 Network.NetGlobals.boot).2.net_stack.map
        fun s => s.sockets) =
      some [{ localPort := some 23, state := Network.TcpState.Listen },
            { localPort := some 22, state := Network.TcpState.Listen }] ∧
    (Network.init envDevNoTelnet 0 Network.NetGlobals.boot).1 =
      Network.NetResult.error Network.errListenTelnet ∧
    (Network.init envDevNoSsh 0 Network.NetGlobals.boot).1 =
      Network.NetResult.error Network.errListenSsh :=
  ⟨((claim_C8 envDev0 0 Network.NetGlobals.boot).1 (by decide)).2.2,
   (claim_C8 envDevNoTelnet 0 Network.NetGlobals.boot).2.1 (by decide) (by decide),
   (claim_C8 envDevNoSsh 0 Network.NetGlobals.boot).2.2 (by decide) (by decide) (by decide)⟩

-- ============================================================================
-- Lemmas about the device scan
-- ============================================================================

/-- Over a pair list with no zero addresses, the scan loop is exactly
`find?` of `slotWorks` over the slot indices. -/
theorem scanSlots_eq_find (env : Network.NetEnv) :
    ∀ l : List (Nat × Nat), (∀ p ∈ l, p.2 ≠ 0) →
      Network.scanSlots env l = (l.map Prod.fst).find? (Network.slotWorks env) := by
  intro l
  induction l with
  | nil => intro _; rfl
  | cons hd tl ih =>
    intro hnz
    obtain ⟨i, addr⟩ := hd
    have haddr : addr ≠ 0 := hnz (i, addr) (List.mem_cons_self _ _)
    have haddr0 : (addr == 0) = false := by simp [haddr]
    have htl := ih fun p hp => hnz p (List.mem_cons_of_mem _ hp)
    cases hdev : env.deviceId i == 1 <;>
      cases htr : env.transportOk i <;>
      cases hnet : env.netOk i <;>
      simp [Network.scanSlots, Network.slotWorks, List.find?_cons, bne,
        hdev, htr, hnet, haddr0, htl]

/-- On a strictly increasing list, `find?` returns an element satisfying the
predicate such that every smaller member of the list refutes it. -/
theorem find_first_pairwise {p : Nat → Bool} :
    ∀ l : List Nat, l.Pairwise (· < ·) → ∀ i, l.find? p = some i →
      p i = true ∧ ∀ j ∈ l, j < i → p j = false := by
  intro l
  induction l with
  | nil => intro _ i h; simp at h
  | cons a tl ih =>
    intro hpw i h
    have hpw' := List.pairwise_cons.mp hpw
    cases hpa : p a with
    | true =>
      have hsome : some a = some i := by
        rw [List.find?_cons, hpa] at h
        exact h
      obtain rfl : a = i := by injection hsome
      refine ⟨hpa, ?_⟩
      intro j hj hji
      rcases List.mem_cons.mp hj with rfl | hjtl
      · exact absurd hji (lt_irrefl _)
      · exact absurd hji (by have := hpw'.1 j hjtl; omega)
    | false =>
      have htl : tl.find? p = some i := by
        rw [List.find?_cons, hpa] at h
        exact h
      obtain ⟨hpi, hrest⟩ := ih hpw'.2 i htl
      refine ⟨hpi, ?_⟩
      intro j hj hji
      rcases List.mem_cons.mp hj with rfl | hjtl
      · exact hpa
      · exact hrest j hjtl hji

/-- The enumerated slot indices of the address table are `0..8`. -/
theorem enum_addrs_fst : Network.VIRTIO_MMIO_ADDRS.enum.map Prod.fst = List.range 8 := by
  decide

/-- No address in the table is zero (so `NonNull::new` never fails). -/
theorem enum_addrs_nonzero : ∀ p ∈ Network.VIRTIO_MMIO_ADDRS.enum, p.2 ≠ 0 := by
  decide

/-- The device scan is `find?` over slots `0..8` in increasing order. -/
theorem findNetDevice_eq_find (env : Network.NetEnv) :
    Network.findNetDevice env = (List.range 8).find? (Network.slotWorks env) := by
  unfold Network.findNetDevice
  rw [scanSlots_eq_find env _ enum_addrs_nonzero, enum_addrs_fst]

-- ============================================================================
-- Claim C6 — probe addresses, order, skipping, and DeviceNotFound
-- ============================================================================

/-- C6: the probe list is exactly the eight MMIO bases `0x0a000000 + i*0x200`
for `i ∈ 0..8`; the scan is a first-match search over slots 0..8 in increasing
order (so every slot before the chosen one fails, in particular every slot
whose device-ID register is not 1 is skipped); and `init` returns the
device-not-found error iff no scanned slot yields a working network device. -/
theorem claim_C6 (env : Network.NetEnv) (dtb : Nat) (g : Network.NetGlobals) :
    Network.VIRTIO_MMIO_ADDRS = (List.range 8).map (fun i => 0x0a000000 + i * 0x200) ∧
    Network.findNetDevice env = (List.range 8).find? (Network.slotWorks env) ∧
    (∀ i, Network.findNetDevice env = some i →
      Network.slotWorks env i = true ∧ ∀ j, j < i → Network.slotWorks env j = false) ∧
    ((Network.init env dtb g).1 = Network.NetResult.error Network.errNoDevice ↔
      ∀ i, i < 8 → Network.slotWorks env i = false) := by
  have hfind := findNetDevice_eq_find env
  refine ⟨by decide, hfind, ?_, ?_⟩
  · intro i hi
    rw [hfind] at hi
    have hpw : (List.range 8).Pairwise (· < ·) := by decide
    obtain ⟨h1, h2⟩ := find_first_pairwise (List.range 8) hpw i hi
    have hi8 : i < 8 := by
      have hmem := List.mem_of_find?_eq_some hi
      simpa [List.mem_range] using hmem
    refine ⟨h1, fun j hji => h2 j (by simp only [List.mem_range]; omega) hji⟩
  · constructor
    · intro h
      cases hfd : Network.findNetDevice env with
      | some slot =>
        cases hT : env.listenTelnetOk with
        | false =>
          rw [init_noTelnet env dtb g slot hfd hT] at h
          exact absurd (show Network.errListenTelnet = Network.errNoDevice by
            simpa using h) (by decide)
        | true =>
          cases hS : env.listenSshOk with
          | false =>
            rw [init_noSsh env dtb g slot hfd hT hS] at h
            exact absurd (show Network.errListenSsh = Network.errNoDevice by
              simpa using h) (by decide)
          | true =>
            rw [init_ok_eq env dtb g slot hfd hT hS] at h
            simp at h
      | none =>
        intro i hi8
        rw [hfind] at hfd
        have hall := List.find?_eq_none.mp hfd i (by simp [List.mem_range, hi8])
        simpa using hall
    · intro hall
      have hfd : Network.findNetDevice env = none := by
        rw [hfind]
        refine List.find?_eq_none.mpr fun x hx => ?_
        have hx8 : x < 8 := by simpa [List.mem_range] using hx
        simp [hall x hx8]
      rw [init_none env dtb g hfd]

/-- C6 witness: the first-match part applied at the slot-0 environment (the
scan found slot 0, which works), and the iff applied at the device-less
environment (the scan fails with the device-not-found error). -/
theorem claim_C6_witness :
    Network.slotWorks envDev0 0 = true ∧
    (Network.init envNoDev 0 Network.NetGlobals.boot).1 =
      Network.NetResult.error Network.errNoDevice :=
  ⟨((claim_C6 envDev0 0 Network.NetGlobals.boot).2.2.1 0 (by decide)).1,
   (claim_C6 envNoDev 0 Network.NetGlobals.boot).2.2.2.mpr (by decide)⟩

-- ============================================================================
-- Claim C7 — network init precedes arming of preemption
-- ============================================================================

/-- C7: on every boot that gets past allocator bring-up, the `network::init`
call appears in the boot event sequence strictly before the scheduler SGI is
enabled, before the timer IRQ handler (IRQ 30) is registered, and before timer
interrupts (10 ms period) are enabled. -/
theorem claim_C7 (env : Main.BootEnv) (halloc : env.allocOk = true) :
    (Main.rust_start env).events.indexOf Main.BootEvent.netInitCall <
      (Main.rust_start env).events.indexOf Main.BootEvent.enableSchedulerSgi ∧
    (Main.rust_start env).events.indexOf Main.BootEvent.netInitCall <
      (Main.rust_start env).events.indexOf (Main.BootEvent.registerTimerIrq 30) ∧
    (Main.rust_start env).events.indexOf Main.BootEvent.netInitCall <
      (Main.rust_start env).events.indexOf (Main.BootEvent.enableTimer 10000) := by
  cases htp : env.testsPass <;>
    cases hsp : env.spawnNetPollOk <;>
    cases hir : Network.is_ready (Network.init env.net 0 Network.NetGlobals.boot).2 <;>
    simp [Main.rust_start, Main.ram_size, Main.code_and_stack, halloc, htp, hsp, hir]

/-- C7 witness: the theorem applied at the concrete fully-working boot. -/
theorem claim_C7_witness :
    (Main.rust_start bootDev0).events.indexOf Main.BootEvent.netInitCall <
      (Main.rust_start bootDev0).events.indexOf Main.BootEvent.enableSchedulerSgi ∧
    (Main.rust_start bootDev0).events.indexOf Main.BootEvent.netInitCall <
      (Main.rust_start bootDev0).events.indexOf (Main.BootEvent.registerTimerIrq 30) ∧
    (Main.rust_start bootDev0).events.indexOf Main.BootEvent.netInitCall <
      (Main.rust_start bootDev0).events.indexOf (Main.BootEvent.enableTimer 10000) :=
  claim_C7 bootDev0 rfl

-- ============================================================================
-- Claim C1 — behaviour of a boot whose network init fails
-- ============================================================================

/-- C1 counterexample: at the concrete boot with no virtio-net device (all
device-ID registers read 0, everything else healthy), `network::init` returns
the device-not-found error, yet the network polling thread IS spawned and the
boot never reaches the idle loop (it is stuck in the wait-for-ready yield
loop) — refuting both "no network polling thread is spawned" and "execution
reaches the idle yield loop". -/
theorem claim_C1_counterexample :
    (Network.init bootNoDev.net 0 Network.NetGlobals.boot).1 =
      Network.NetResult.error Network.errNoDevice ∧
    Main.BootEvent.spawnNetPollThread ∈ (Main.rust_start bootNoDev).events ∧
    (Main.rust_start bootNoDev).outcome ≠ Main.BootOutcome.idleLoop ∧
    Network.is_ready (Main.rust_start bootNoDev).netGlobals = false := by
  decide

/-- C1 (amended): for every boot in which network init returns an error (and
allocator, tests and thread spawn succeed), `is_ready()` remains false, but the
polling thread is still spawned unconditionally and the boot thread then spins
forever in the `while !network::is_ready()` yield loop, never reaching the
idle loop. -/
theorem claim_C1_amended (env : Main.BootEnv) (halloc : env.allocOk = true)
    (htests : env.testsPass = true) (hspawn : env.spawnNetPollOk = true)
    (hfail : (Network.init env.net 0 Network.NetGlobals.boot).1.isOk = false) :
    (Main.rust_start env).outcome = Main.BootOutcome.stuckWaitingNetReady ∧
    Main.BootEvent.spawnNetPollThread ∈ (Main.rust_start env).events ∧
    Network.is_ready (Main.rust_start env).netGlobals = false := by
  have hready : Network.is_ready (Network.init env.net 0 Network.NetGlobals.boot).2 = false := by
    cases hr : (Network.init env.net 0 Network.NetGlobals.boot).1 with
    | ok => rw [hr] at hfail; simp [Network.NetResult.isOk] at hfail
    | error e => rw [init_err_frame env.net 0 Network.NetGlobals.boot e hr]; rfl
  refine ⟨?_, ?_, ?_⟩ <;>
    simp [Main.rust_start, Main.ram_size, Main.code_and_stack, halloc, htests,
      hspawn, hready]

/-- C1 witness: the amended theorem applied at the concrete device-less
boot. -/
theorem claim_C1_witness :
    (Main.rust_start bootNoDev).outcome = Main.BootOutcome.stuckWaitingNetReady ∧
    Main.BootEvent.spawnNetPollThread ∈ (Main.rust_start bootNoDev).events ∧
    Network.is_ready (Main.rust_start bootNoDev).netGlobals = false :=
  claim_C1_amended bootNoDev rfl rfl rfl (by decide)

-- ============================================================================
-- Lemmas about the SSH accept loop
-- ============================================================================

/-- Source: `swap_remove` shortens a list by one (and maps `[]` to `[]`). -/
theorem swapRemove_length (l : List Nat) (i : Nat) :
    (SshServer.swapRemove l i).length = l.length - 1 := by
  cases l with
  | nil => rfl
  | cons a t => simp [SshServer.swapRemove, List.length_set, List.length_dropLast]

/-- The poll phase never grows the connection list (bounded-measure
generalisation). -/
theorem pollPhase_length_le_aux (ready : Nat → Bool) :
    ∀ (m i : Nat) (conns : List Nat), conns.length - i ≤ m →
      (SshServer.pollPhase ready i conns).length ≤ conns.length := by
  intro m
  induction m with
  | zero =>
    intro i conns h
    rw [SshServer.pollPhase]
    rw [dif_neg (by omega)]
  | succ m ih =>
    intro i conns h
    rw [SshServer.pollPhase]
    split
    · next hlt =>
      split
      · next hready =>
        have hlen := swapRemove_length conns i
        have hrec := ih i (SshServer.swapRemove conns i) (by omega)
        omega
      · next hready =>
        exact ih (i + 1) conns (by omega)
    · next hge => exact Nat.le_refl _

/-- The poll phase never grows the connection list. -/
theorem pollPhase_length_le (ready : Nat → Bool) (i : Nat) (conns : List Nat) :
    (SshServer.pollPhase ready i conns).length ≤ conns.length :=
  pollPhase_length_le_aux ready (conns.length - i) i conns (Nat.le_refl _)

-- ============================================================================
-- Claim C9 — the accept loop never exceeds MAX_CONNECTIONS
-- ============================================================================

/-- C9: at the top of every iteration of the SSH server accept loop, the
number of simultaneously active connections is at most `MAX_CONNECTIONS` (8):
the step appends a new connection only when the post-poll length is strictly
below 8, so the invariant is preserved from the empty initial list. -/
theorem claim_C9 (env : SshServer.SshEnv) (n : Nat) :
    (SshServer.sshRun env n).connections.length ≤ SshServer.MAX_CONNECTIONS := by
  have hmax : SshServer.MAX_CONNECTIONS = 8 := rfl
  induction n with
  | zero => simp [SshServer.sshRun, SshServer.SshState.start, hmax]
  | succ n ih =>
    show (SshServer.sshStep (env.ready n) (env.accept n)
        (SshServer.sshRun env n)).connections.length ≤ _
    have hpoll := pollPhase_length_le (env.ready n) 0
      (SshServer.sshRun env n).connections
    simp only [SshServer.sshStep]
    split
    · next hlt =>
      cases hacc : env.accept n <;> simp only [] <;>
        simp [List.length_append] <;> omega
    · next hge =>
      simp only []
      omega

/-- C3 witness: the amended theorem applied at a concrete located panic and at
a concrete location-free panic. -/
theorem claim_C3_witness :
    (Main.panic (some exLoc) "m").output =
      ["\n\n!!! PANIC !!!\n", "Location: ", "src/main.rs", ":", "42", "\n",
       "Message: ", "m\n"] ∧
    (Main.panic none "m").output = ["\n\n!!! PANIC !!!\n", "Message: ", "m\n"] :=
  ⟨by
    have h := (claim_C3_amended (some exLoc) "m").2.1 exLoc rfl
    simpa [exLoc] using h,
   (claim_C3_amended none "m").2.2.1 rfl⟩
